import Mathlib

/-!
Verification of `airflow/contrib/operators/bigquery_get_data.py`
(`BigQueryGetDataOperator`): a shallow embedding of the operator's
constructor and `execute` method, together with theorems about the
claims of the specification.

The backend (hook / connection / cursor) is the injected seam: it is
modelled as a `Stub` record whose two operations may fail with an
external error of type `ε`.  Python `dict` key access on the response
is modelled with `Option` fields, a missing key turning into a
`PyError.keyError`, matching the fact that the code performs no
defensive validation of the response shape.
-/

namespace BigQueryGetData

/-- One cell of the tabledata response: the JSON object holding a single
scalar value under the key `v` (accessed as `fields['v']` in the source). -/
structure BQCell where
  v : String
  deriving Repr, DecidableEq

/-- One record of the tabledata response: the JSON object holding an ordered
sequence of cells under the key `f` (accessed as `dict_row['f']`). -/
structure BQRecord where
  f : List BQCell
  deriving Repr, DecidableEq

/-- The tabledata response dict.  The source accesses `response['totalRows']`
and `response['rows']` with plain subscripting, so each key may be absent;
an absent key raises a `KeyError` in Python, hence the `Option` fields. -/
structure BQResponse where
  totalRows : Option String
  rows : Option (List BQRecord)
  deriving Repr, DecidableEq

/-- Errors that `execute` can surface: a Python `KeyError` from subscripting
the response dict, or an error raised by the backend collaborator. -/
inductive PyError (ε : Type) where
  | keyError (key : String)
  | backend (e : ε)
  deriving Repr, DecidableEq

/-- The operator's configuration fields, assigned in `__init__`
(lines 103-109 of the source). -/
structure BigQueryGetDataOperator where
  dataset_id : String
  table_id : String
  max_results : String
  selected_fields : Option String
  gcp_conn_id : String
  delegate_to : Option String
  location : Option String
  deriving Repr, DecidableEq

/-- Python truthiness of the `Optional[str]` argument `bigquery_conn_id`:
`if bigquery_conn_id:` is true iff the value is neither `None` nor `''`. -/
def truthy : Option String → Bool
  | none => false
  | some s => s != ""

/-- The deprecation message emitted by `warnings.warn` in `__init__`. -/
def deprecationMessage : String :=
  "The bigquery_conn_id parameter has been deprecated. You should pass the gcp_conn_id parameter."

/-- Result of running the constructor: the constructed operator together
with the list of warning messages emitted during construction. -/
structure InitResult where
  op : BigQueryGetDataOperator
  warnings : List String
  deriving Repr, DecidableEq

/-- Embedding of `BigQueryGetDataOperator.__init__` (source lines 84-109):
if `bigquery_conn_id` is truthy, warn and let it override `gcp_conn_id`;
then store every field verbatim.  No other validation is performed. -/
def BigQueryGetDataOperator.init (dataset_id : String) (table_id : String)
    (max_results : String) (selected_fields : Option String)
    (gcp_conn_id : String) (bigquery_conn_id : Option String)
    (delegate_to : Option String) (location : Option String) : InitResult :=
  let warned := truthy bigquery_conn_id
  let resolved := if warned then bigquery_conn_id.getD gcp_conn_id else gcp_conn_id
  ⟨⟨dataset_id, table_id, max_results, selected_fields, resolved, delegate_to, location⟩,
    if warned then [deprecationMessage] else []⟩

/-- The injected backend seam, standing for
`BigQueryHook(...).get_conn().cursor()`:
`get_conn` receives the hook parameters (`gcp_conn_id`, `delegate_to`,
`location`) and may fail; `get_tabledata` receives the four fetch
parameters and may fail or return a response dict. -/
structure Stub (ε : Type) where
  get_conn : String → Option String → Option String → Except ε Unit
  get_tabledata : String → String → String → Option String → Except ε BQResponse

/-- One invocation of the remote fetch, recording the arguments it was
passed (source lines 122-125). -/
structure FetchCall where
  dataset_id : String
  table_id : String
  max_results : String
  selected_fields : Option String
  deriving Repr, DecidableEq

/-- Observable outcome of one `execute` invocation: the returned value or
the propagated error, the trace of remote fetch invocations, and the
operator state after the call (`execute` contains no assignment to
`self`, so the embedding threads the state through explicitly). -/
structure ExecOutcome (ε : Type) where
  result : Except (PyError ε) (List (List String))
  calls : List FetchCall
  final : BigQueryGetDataOperator

/-- The inner loop of `execute`: `single_row` starts empty and each cell's
value is appended in order (source lines 132-134). -/
def buildSingleRow (dict_row : BQRecord) : List String :=
  dict_row.f.foldl (fun single_row cell => single_row ++ [cell.v]) []

/-- The outer loop of `execute`: `table_data` starts empty and each record's
row is appended in response order (source lines 130-135). -/
def buildTableData (rows : List BQRecord) : List (List String) :=
  rows.foldl (fun table_data dict_row => table_data ++ [buildSingleRow dict_row]) []

/-- Embedding of `BigQueryGetDataOperator.execute` (source lines 111-137):
acquire the connection (propagating any backend error), perform the one
tabledata fetch (propagating any backend error), access
`response['totalRows']` and then `response['rows']` (a missing key is a
`KeyError`), and flatten the records into `table_data`.  Logging calls
have no effect on the outcome and are elided. -/
def BigQueryGetDataOperator.execute {ε : Type} (op : BigQueryGetDataOperator)
    (stub : Stub ε) : ExecOutcome ε :=
  match stub.get_conn op.gcp_conn_id op.delegate_to op.location with
  | Except.error e => ⟨Except.error (PyError.backend e), [], op⟩
  | Except.ok _ =>
    let call : FetchCall := ⟨op.dataset_id, op.table_id, op.max_results, op.selected_fields⟩
    match stub.get_tabledata op.dataset_id op.table_id op.max_results op.selected_fields with
    | Except.error e => ⟨Except.error (PyError.backend e), [call], op⟩
    | Except.ok response =>
      match response.totalRows with
      | none => ⟨Except.error (PyError.keyError "totalRows"), [call], op⟩
      | some _ =>
        match response.rows with
        | none => ⟨Except.error (PyError.keyError "rows"), [call], op⟩
        | some rows => ⟨Except.ok (buildTableData rows), [call], op⟩

/-! Sample data: the stub response from the specification's worked example. -/

/-- The three stub records of two cells each. -/
def sampleRows : List BQRecord :=
  [⟨[⟨"Tony"⟩, ⟨"10"⟩]⟩, ⟨[⟨"Mike"⟩, ⟨"20"⟩]⟩, ⟨[⟨"Steve"⟩, ⟨"15"⟩]⟩]

/-- The stub response with three records of two cells each. -/
def sampleResponse : BQResponse :=
  ⟨some "3", some sampleRows⟩

/-- A stub backend whose connection always succeeds and whose fetch always
returns `sampleResponse`. -/
def sampleStub : Stub String :=
  ⟨fun _ _ _ => Except.ok (), fun _ _ _ _ => Except.ok sampleResponse⟩

/-- The operator from the specification's construction example. -/
def sampleOp : BigQueryGetDataOperator :=
  (BigQueryGetDataOperator.init "test_dataset" "Transaction_partitions" "100"
    (some "DATE") "airflow-conn-id" none none none).op

/-! Helper lemmas about the flattening loops. -/

theorem foldl_append_singleton {α β : Type} (g : α → β) (l : List α) (acc : List β) :
    l.foldl (fun a x => a ++ [g x]) acc = acc ++ l.map g := by
  induction l generalizing acc with
  | nil => simp
  | cons x xs ih => simp [ih]

theorem buildSingleRow_eq_map (dict_row : BQRecord) :
    buildSingleRow dict_row = dict_row.f.map BQCell.v := by
  simpa using foldl_append_singleton BQCell.v dict_row.f []

theorem buildTableData_eq_map (rows : List BQRecord) :
    buildTableData rows = rows.map (fun r => r.f.map BQCell.v) := by
  have h := foldl_append_singleton buildSingleRow rows []
  simp only [buildTableData, h, List.nil_append]
  exact List.map_congr_left (fun r _ => buildSingleRow_eq_map r)

theorem execute_final_eq {ε : Type} (op : BigQueryGetDataOperator) (stub : Stub ε) :
    (op.execute stub).final = op := by
  cases hc : stub.get_conn op.gcp_conn_id op.delegate_to op.location with
  | error e => simp [BigQueryGetDataOperator.execute, hc]
  | ok u =>
    cases ht : stub.get_tabledata op.dataset_id op.table_id op.max_results op.selected_fields with
    | error e => simp [BigQueryGetDataOperator.execute, hc, ht]
    | ok response =>
      cases hr : response.totalRows with
      | none => simp [BigQueryGetDataOperator.execute, hc, ht, hr]
      | some t =>
        cases hw : response.rows with
        | none => simp [BigQueryGetDataOperator.execute, hc, ht, hr, hw]
        | some rows => simp [BigQueryGetDataOperator.execute, hc, ht, hr, hw]

theorem execute_calls_eq {ε : Type} (op : BigQueryGetDataOperator) (stub : Stub ε)
    (hconn : stub.get_conn op.gcp_conn_id op.delegate_to op.location = Except.ok ()) :
    (op.execute stub).calls
      = [⟨op.dataset_id, op.table_id, op.max_results, op.selected_fields⟩] := by
  cases ht : stub.get_tabledata op.dataset_id op.table_id op.max_results op.selected_fields with
  | error e => simp [BigQueryGetDataOperator.execute, hconn, ht]
  | ok response =>
    cases hr : response.totalRows with
    | none => simp [BigQueryGetDataOperator.execute, hconn, ht, hr]
    | some t =>
      cases hw : response.rows with
      | none => simp [BigQueryGetDataOperator.execute, hconn, ht, hr, hw]
      | some rows => simp [BigQueryGetDataOperator.execute, hconn, ht, hr, hw]

theorem execute_result_ok {ε : Type} (op : BigQueryGetDataOperator) (stub : Stub ε)
    (resp : BQResponse) (t : String) (rows : List BQRecord)
    (hconn : stub.get_conn op.gcp_conn_id op.delegate_to op.location = Except.ok ())
    (hfetch : stub.get_tabledata op.dataset_id op.table_id op.max_results op.selected_fields
      = Except.ok resp)
    (htotal : resp.totalRows = some t)
    (hrows : resp.rows = some rows) :
    (op.execute stub).result = Except.ok (rows.map (fun r => r.f.map BQCell.v)) := by
  simp [BigQueryGetDataOperator.execute, hconn, hfetch, htotal, hrows, buildTableData_eq_map]

/-- A stub backend whose connection acquisition fails. -/
def failConnStub : Stub String :=
  ⟨fun _ _ _ => Except.error "connection failed", fun _ _ _ _ => Except.ok sampleResponse⟩

/-- A response with a well-formed rows sequence but no totalRows key. -/
def noTotalResponse : BQResponse :=
  ⟨none, some sampleRows⟩

/-- A stub backend whose fetch returns `noTotalResponse`. -/
def noTotalStub : Stub String :=
  ⟨fun _ _ _ => Except.ok (), fun _ _ _ _ => Except.ok noTotalResponse⟩

/-! The claim theorems. -/

/-- C1: for every configuration and every stub connection whose fetch returns a
response of N records of C cells each, execute returns exactly the N rows of C
scalar values, in response order, with no filtering, sorting, or dedup: the
result is literally the cell-value map of the records. -/
theorem execute_shape {ε : Type} (op : BigQueryGetDataOperator) (stub : Stub ε)
    (resp : BQResponse) (t : String) (rows : List BQRecord) (C : Nat)
    (hconn : stub.get_conn op.gcp_conn_id op.delegate_to op.location = Except.ok ())
    (hfetch : stub.get_tabledata op.dataset_id op.table_id op.max_results op.selected_fields
      = Except.ok resp)
    (htotal : resp.totalRows = some t)
    (hrows : resp.rows = some rows)
    (hcells : ∀ r ∈ rows, r.f.length = C) :
    (op.execute stub).result = Except.ok (rows.map (fun r => r.f.map BQCell.v)) ∧
    (rows.map (fun r => r.f.map BQCell.v)).length = rows.length ∧
    ∀ row ∈ rows.map (fun r => r.f.map BQCell.v), row.length = C := by
  refine ⟨execute_result_ok op stub resp t rows hconn hfetch htotal hrows, by simp, ?_⟩
  intro row hrow
  simp only [List.mem_map] at hrow
  obtain ⟨r, hr, hre⟩ := hrow
  simp [← hre, hcells r hr]

/-- C1 witness: the shape theorem instantiated at the worked example with
N = 3 and C = 2. -/
theorem execute_shape_witness :
    (sampleOp.execute sampleStub).result
      = Except.ok (sampleRows.map (fun r => r.f.map BQCell.v)) ∧
    (sampleRows.map (fun r => r.f.map BQCell.v)).length = sampleRows.length ∧
    ∀ row ∈ sampleRows.map (fun r => r.f.map BQCell.v), row.length = 2 :=
  execute_shape sampleOp sampleStub sampleResponse "3" sampleRows 2 rfl rfl rfl rfl
    (by decide)

/-- C2: on the stub response with totalRows 3 and the Tony/Mike/Steve records,
execute returns exactly the three two-element rows of the example. -/
theorem execute_sample_result :
    (sampleOp.execute sampleStub).result
      = Except.ok [["Tony", "10"], ["Mike", "20"], ["Steve", "15"]] := rfl

/-- C3 counterexample: supplying the legacy parameter as the empty string is a
construction where the legacy parameter is supplied, yet the resolved
connection id is not the legacy value and no deprecation warning is emitted. -/
theorem init_legacy_empty_counterexample :
    ¬ (((BigQueryGetDataOperator.init "test_dataset" "test_table" "100" none
          "google_cloud_default" (some "") none none).op.gcp_conn_id = "") ∧
        (BigQueryGetDataOperator.init "test_dataset" "test_table" "100" none
          "google_cloud_default" (some "") none none).warnings ≠ []) := by
  intro h
  exact h.2 rfl

/-- C3 amended: for every construction where the legacy bigquery_conn_id
parameter is supplied with a non-empty value, the resolved gcp_conn_id equals
the legacy value, the deprecation warning is emitted, and construction
completes normally. -/
theorem init_legacy_nonempty_overrides (ds tb mr : String) (sf : Option String)
    (gcp b : String) (dt loc : Option String) (hb : b ≠ "") :
    (BigQueryGetDataOperator.init ds tb mr sf gcp (some b) dt loc).op.gcp_conn_id = b ∧
    (BigQueryGetDataOperator.init ds tb mr sf gcp (some b) dt loc).warnings
      = [deprecationMessage] := by
  have ht : truthy (some b) = true := by simp [truthy, hb]
  constructor <;> simp [BigQueryGetDataOperator.init, ht]

/-- C3 witness: a concrete non-empty legacy value overrides the default and
produces the deprecation warning. -/
theorem init_legacy_nonempty_overrides_witness :
    (BigQueryGetDataOperator.init "d" "t" "100" none "google_cloud_default"
        (some "airflow-conn-id") none none).op.gcp_conn_id = "airflow-conn-id" ∧
    (BigQueryGetDataOperator.init "d" "t" "100" none "google_cloud_default"
        (some "airflow-conn-id") none none).warnings = [deprecationMessage] :=
  init_legacy_nonempty_overrides "d" "t" "100" none "google_cloud_default"
    "airflow-conn-id" none none (by decide)

/-- C4: if connection acquisition or the remote fetch raises a backend error,
execute surfaces exactly that error with no recovery and no row list. -/
theorem execute_error_propagation {ε : Type} (op : BigQueryGetDataOperator)
    (stub : Stub ε) (e : ε)
    (h : stub.get_conn op.gcp_conn_id op.delegate_to op.location = Except.error e ∨
      (stub.get_conn op.gcp_conn_id op.delegate_to op.location = Except.ok () ∧
        stub.get_tabledata op.dataset_id op.table_id op.max_results op.selected_fields
          = Except.error e)) :
    (op.execute stub).result = Except.error (PyError.backend e) := by
  rcases h with hc | ⟨hc, ht⟩
  · simp [BigQueryGetDataOperator.execute, hc]
  · simp [BigQueryGetDataOperator.execute, hc, ht]

/-- C4 witness: a stub whose connection acquisition fails makes execute
surface that very error. -/
theorem execute_error_propagation_witness :
    (sampleOp.execute failConnStub).result
      = Except.error (PyError.backend "connection failed") :=
  execute_error_propagation sampleOp failConnStub "connection failed" (Or.inl rfl)

/-- C5 counterexample: construction with empty dataset_id and table_id
completes and stores the empty strings, so construction does not establish
the non-emptiness invariant. -/
theorem init_empty_ids_counterexample :
    (BigQueryGetDataOperator.init "" "" "100" none "google_cloud_default"
        none none none).op.dataset_id = "" ∧
    (BigQueryGetDataOperator.init "" "" "100" none "google_cloud_default"
        none none none).op.table_id = "" :=
  ⟨rfl, rfl⟩

/-- C5 amended: construction performs no validation of dataset_id and
table_id; they are stored exactly as supplied, so they are non-empty after
construction exactly when the caller supplies non-empty strings. -/
theorem init_stores_ids (ds tb mr : String) (sf : Option String) (gcp : String)
    (b dt loc : Option String) :
    (BigQueryGetDataOperator.init ds tb mr sf gcp b dt loc).op.dataset_id = ds ∧
    (BigQueryGetDataOperator.init ds tb mr sf gcp b dt loc).op.table_id = tb :=
  ⟨rfl, rfl⟩

/-- C6: execute leaves the operator state unchanged, so a second invocation on
the state left by the first, with the same stub, returns the same result. -/
theorem execute_idempotent {ε : Type} (op : BigQueryGetDataOperator) (stub : Stub ε) :
    ((op.execute stub).final.execute stub).result = (op.execute stub).result ∧
    (op.execute stub).final = op := by
  constructor
  · rw [execute_final_eq]
  · exact execute_final_eq op stub

/-- C7: when the connection succeeds, execute performs exactly one fetch call
carrying the constructor-supplied dataset_id, table_id, max_results, and
selected_fields (absent when not supplied), and on a well-formed response the
result is determined by the stub response alone. -/
theorem execute_single_fetch {ε : Type} (ds tb mr : String) (sf : Option String)
    (gcp : String) (b dt loc : Option String) (stub : Stub ε)
    (hconn : stub.get_conn
        (BigQueryGetDataOperator.init ds tb mr sf gcp b dt loc).op.gcp_conn_id dt loc
      = Except.ok ()) :
    ((BigQueryGetDataOperator.init ds tb mr sf gcp b dt loc).op.execute stub).calls
      = [⟨ds, tb, mr, sf⟩] ∧
    ∀ resp t rows, stub.get_tabledata ds tb mr sf = Except.ok resp →
      resp.totalRows = some t → resp.rows = some rows →
      ((BigQueryGetDataOperator.init ds tb mr sf gcp b dt loc).op.execute stub).result
        = Except.ok (rows.map (fun r => r.f.map BQCell.v)) := by
  refine ⟨execute_calls_eq _ stub hconn, ?_⟩
  intro resp t rows hfetch htotal hrows
  exact execute_result_ok _ stub resp t rows hconn hfetch htotal hrows

/-- C7 witness: an operator constructed without selected_fields performs one
fetch call with selected_fields absent, and the result on the sample stub is
the flattened sample rows. -/
theorem execute_single_fetch_witness :
    ((BigQueryGetDataOperator.init "ds" "tbl" "100" none "google_cloud_default"
        none none none).op.execute sampleStub).calls = [⟨"ds", "tbl", "100", none⟩] ∧
    ((BigQueryGetDataOperator.init "ds" "tbl" "100" none "google_cloud_default"
        none none none).op.execute sampleStub).result
      = Except.ok (sampleRows.map (fun r => r.f.map BQCell.v)) :=
  ⟨(execute_single_fetch "ds" "tbl" "100" none "google_cloud_default" none none none
      sampleStub rfl).1,
   (execute_single_fetch "ds" "tbl" "100" none "google_cloud_default" none none none
      sampleStub rfl).2 sampleResponse "3" sampleRows rfl rfl rfl⟩

/-- C8: every configuration field is unchanged by execute. -/
theorem execute_frame {ε : Type} (op : BigQueryGetDataOperator) (stub : Stub ε) :
    (op.execute stub).final.dataset_id = op.dataset_id ∧
    (op.execute stub).final.table_id = op.table_id ∧
    (op.execute stub).final.max_results = op.max_results ∧
    (op.execute stub).final.selected_fields = op.selected_fields ∧
    (op.execute stub).final.gcp_conn_id = op.gcp_conn_id ∧
    (op.execute stub).final.delegate_to = op.delegate_to ∧
    (op.execute stub).final.location = op.location := by
  rw [execute_final_eq]
  exact ⟨rfl, rfl, rfl, rfl, rfl, rfl, rfl⟩

/-- C9: a falsy legacy value (None or the empty string) neither overrides
gcp_conn_id nor emits a deprecation warning. -/
theorem init_falsy_legacy (ds tb mr : String) (sf : Option String) (gcp : String)
    (b dt loc : Option String) (hb : b = none ∨ b = some "") :
    (BigQueryGetDataOperator.init ds tb mr sf gcp b dt loc).op.gcp_conn_id = gcp ∧
    (BigQueryGetDataOperator.init ds tb mr sf gcp b dt loc).warnings = [] := by
  rcases hb with hb | hb <;> subst hb <;> exact ⟨rfl, rfl⟩

/-- C9 witness: the empty-string legacy value keeps the supplied gcp_conn_id
and emits no warning. -/
theorem init_falsy_legacy_witness :
    (BigQueryGetDataOperator.init "d" "t" "100" none "google_cloud_default"
        (some "") none none).op.gcp_conn_id = "google_cloud_default" ∧
    (BigQueryGetDataOperator.init "d" "t" "100" none "google_cloud_default"
        (some "") none none).warnings = [] :=
  init_falsy_legacy "d" "t" "100" none "google_cloud_default" (some "") none none
    (Or.inr rfl)

/-- C10: totalRows is accessed before rows, so a response lacking totalRows
makes execute fail with the corresponding KeyError and return no rows, even
when the rows field is present and well-formed. -/
theorem execute_totalRows_missing {ε : Type} (op : BigQueryGetDataOperator)
    (stub : Stub ε) (resp : BQResponse)
    (hconn : stub.get_conn op.gcp_conn_id op.delegate_to op.location = Except.ok ())
    (hfetch : stub.get_tabledata op.dataset_id op.table_id op.max_results op.selected_fields
      = Except.ok resp)
    (hmissing : resp.totalRows = none) :
    (op.execute stub).result = Except.error (PyError.keyError "totalRows") := by
  simp [BigQueryGetDataOperator.execute, hconn, hfetch, hmissing]

/-- C10 witness: a response carrying well-formed rows but no totalRows key
makes execute fail with the totalRows KeyError. -/
theorem execute_totalRows_missing_witness :
    (sampleOp.execute noTotalStub).result
      = Except.error (PyError.keyError "totalRows") :=
  execute_totalRows_missing sampleOp noTotalStub noTotalResponse rfl rfl rfl

end BigQueryGetData
